import Mathlib

/-!
A verification development for the implied-volatility and Greeks calculator
`Scripts/iv_calculator.py` (class `CalcIvGreeks`, Black-76 model).

The Python code is shallowly embedded:
* calendar arithmetic (`datetime`, `numpy.busday_count`) over `Nat`/`Int`
  ordinals (Python `date.toordinal` numbering, 0001-01-01 = 1);
* exact monetary/date arithmetic over `ℚ`;
* the Black-76 analytic layer (`scipy.stats.norm`, `exp`, `log`, `sqrt`)
  over `ℝ`, with IEEE infinities modelled by an explicit three-point
  extension `ExtReal` of `ℝ`;
* `scipy.optimize.brentq` modelled by its documented interface: it raises
  (here: `Except.error`) when the bracket `[a, b]` has no sign change,
  and otherwise its iteration outcome (a root, or a convergence failure)
  is an explicit parameter;
* Python attribute access on possibly-unset attributes (`self.K`, `self.C`,
  `self.P`) via `Option`, with `AttributeError` as an `Except` error.
-/

/-- A calendar date (proleptic Gregorian), mirroring Python `datetime.date`. -/
structure Date where
  year : Nat
  month : Nat
  day : Nat
deriving DecidableEq

/-- A timestamp mirroring Python `datetime.datetime`. -/
structure DateTime where
  date : Date
  hour : Nat
  minute : Nat
  second : Nat
  microsecond : Nat
deriving DecidableEq

/-- Gregorian leap-year rule, as Python `calendar.isleap`. -/
def isLeapYear (y : Nat) : Bool :=
  (y % 4 == 0 && y % 100 != 0) || (y % 400 == 0)

/-- Days strictly before month `m` (1-based) in a year, leap-aware. -/
def daysBeforeMonth (leap : Bool) (m : Nat) : Nat :=
  let base := match m with
    | 1 => 0 | 2 => 31 | 3 => 59 | 4 => 90 | 5 => 120 | 6 => 151 | 7 => 181
    | 8 => 212 | 9 => 243 | 10 => 273 | 11 => 304 | _ => 334
  if leap && decide (2 < m) then base + 1 else base

/-- Python `date.toordinal`: proleptic-Gregorian day number, 0001-01-01 = 1. -/
def Date.toOrdinal (d : Date) : Nat :=
  let y := d.year - 1
  365 * y + y / 4 - y / 100 + y / 400 + daysBeforeMonth (isLeapYear d.year) d.month + d.day

/-- Python `date.weekday`: Monday = 0 .. Sunday = 6, from the ordinal. -/
def weekdayOfOrdinal (n : Nat) : Nat := (n - 1) % 7

/-- Membership in numpy weekmask "1111100" (Monday through Friday). -/
def isWeekday (n : Nat) : Bool := weekdayOfOrdinal n < 5

/-- Count the weekdays not in `holidays` among `fuel` consecutive ordinals starting at `a`. -/
def countBusdaysFrom (holidays : List Nat) (a : Nat) : Nat → Nat
  | 0 => 0
  | fuel + 1 =>
      (if isWeekday a && !(holidays.contains a) then 1 else 0)
        + countBusdaysFrom holidays (a + 1) fuel

/-- numpy `busday_count(begindates, enddates, weekmask="1111100", holidays)`:
weekdays not in `holidays` in the half-open ordinal range `[a, b)`;
negative of the reversed count when `b < a`. -/
def busdayCount (holidays : List Nat) (a b : Nat) : Int :=
  if a ≤ b then (countBusdaysFrom holidays a (b - a) : Int)
  else -(countBusdaysFrom holidays b (a - b) : Int)

/-- The module-level `HOLIDAYS` list (Indian holidays 2025 and 2026). -/
def HOLIDAYS : List Date :=
  [⟨2025, 2, 26⟩, ⟨2025, 3, 14⟩, ⟨2025, 3, 31⟩, ⟨2025, 4, 10⟩,
   ⟨2025, 4, 14⟩, ⟨2025, 4, 18⟩, ⟨2025, 5, 1⟩, ⟨2025, 8, 15⟩,
   ⟨2025, 8, 27⟩, ⟨2025, 10, 2⟩, ⟨2025, 10, 21⟩, ⟨2025, 10, 22⟩,
   ⟨2025, 11, 5⟩, ⟨2025, 12, 25⟩, ⟨2026, 1, 26⟩, ⟨2026, 3, 3⟩,
   ⟨2026, 3, 26⟩, ⟨2026, 3, 31⟩, ⟨2026, 4, 3⟩, ⟨2026, 4, 14⟩,
   ⟨2026, 5, 1⟩, ⟨2026, 5, 28⟩, ⟨2026, 6, 26⟩, ⟨2026, 9, 14⟩,
   ⟨2026, 10, 2⟩, ⟨2026, 10, 20⟩, ⟨2026, 11, 10⟩, ⟨2026, 11, 24⟩,
   ⟨2026, 12, 25⟩, ⟨2026, 1, 15⟩]

/-- The `HOLIDAYS` dates as day ordinals (the form `busday_count` consumes). -/
def holidayOrdinals : List Nat := HOLIDAYS.map Date.toOrdinal

/-- Python enum `ExpType`. -/
inductive ExpType | WEEKLY | MONTHLY
deriving DecidableEq

/-- Python enum `DayCountType` (an `IntEnum`; its integer values live in
`DayCountType.value`, which depends on the year current at module import). -/
inductive DayCountType | CALENDARDAYS | BUSINESSDAYS | TRADINGDAYS
deriving DecidableEq

/-- Python enum `TryMatchWith`. -/
inductive TryMatchWith | NSE | CUSTOM | SENSIBULL
deriving DecidableEq

/-- Python enum `FromDateType`. -/
inductive FromDateType | FIXED | DYNAMIC
deriving DecidableEq

/-- The integer value of each `DayCountType` member. `BUSINESSDAYS` and
`TRADINGDAYS` are computed at module import from `CURRENTYEAR = dt.now().year`,
so they are functions of that import-time year here. -/
def DayCountType.value (currentYear : Nat) : DayCountType → Int
  | .CALENDARDAYS => 365
  | .BUSINESSDAYS =>
      busdayCount [] (Date.toOrdinal ⟨currentYear, 1, 1⟩) (Date.toOrdinal ⟨currentYear + 1, 1, 1⟩)
  | .TRADINGDAYS =>
      busdayCount holidayOrdinals (Date.toOrdinal ⟨currentYear, 1, 1⟩)
        (Date.toOrdinal ⟨currentYear + 1, 1, 1⟩)

/-- Exceptions the embedded methods can raise. -/
inductive PyError | invalidInput | attributeError
deriving DecidableEq

/-- The attribute state of a `CalcIvGreeks` instance. `K`, `C`, `P` are
`Option`s because `__init__` leaves them unset when the corresponding
argument is `None`; touching them then raises `AttributeError`. -/
structure CalcIvGreeks where
  dateFuture : DateTime
  datePast : DateTime
  datePastType : FromDateType
  dayCountType : DayCountType
  tryMatchWith : TryMatchWith
  F : ℚ
  K0 : ℚ
  C0 : ℚ
  P0 : ℚ
  r : ℚ
  S : ℚ
  original_C0 : ℚ
  original_P0 : ℚ
  K : Option ℚ
  C : Option ℚ
  P : Option ℚ
  T : ℚ
deriving DecidableEq

/-- `CalcIvGreeks.refreshNow`: re-sample the clock only when `DYNAMIC`. -/
def CalcIvGreeks.refreshNow (now : DateTime) (s : CalcIvGreeks) : CalcIvGreeks :=
  if s.datePastType = FromDateType.DYNAMIC then { s with datePast := now } else s

/-- Seconds elapsed since midnight of the timestamp's own date
(microseconds dropped, as the numpy cast to `timedelta64[s]` truncates). -/
def secondsFromMidnight (d : DateTime) : Nat :=
  d.hour * 3600 + d.minute * 60 + d.second

/-- `CalcIvGreeks.get_dte`. `CALENDARDAYS`: seconds from `datePast` to
15:30:00 on the expiry date, divided by 86400. Any other convention:
`busday_count(datePast.date(), (dateFuture + 1 day).date(), "1111100",
holidays=HOLIDAYS)` days, minus the 08:30 market-open offset, minus the
valuation time's offset from midnight, in day units. Note the holidays
are passed in this branch for `BUSINESSDAYS` as well as `TRADINGDAYS`. -/
def CalcIvGreeks.get_dte (dct : DayCountType) (past future : DateTime) : ℚ :=
  match dct with
  | DayCountType.CALENDARDAYS =>
      let expiry_us : Int := ((future.date.toOrdinal : Int) * 86400 + (15 * 3600 + 30 * 60)) * 1000000
      let past_us : Int :=
        ((past.date.toOrdinal : Int) * 86400 + (secondsFromMidnight past : Int)) * 1000000
          + (past.microsecond : Int)
      ((Int.tdiv (expiry_us - past_us) 1000000 : Int) : ℚ) / 86400
  | _ =>
      let cnt := busdayCount holidayOrdinals past.date.toOrdinal (future.date.toOrdinal + 1)
      ((cnt * 86400 - 30600 - (secondsFromMidnight past : Int) : Int) : ℚ) / 86400

/-- The year-fraction divisor chosen inside `CalcIvGreeks.get_tte`, i.e. the
Python conditional-expression chain forming the denominator of
`get_dte() / (...)`. `DayCountType` is a Python `IntEnum`, so every
`self.dayCountType == DayCountType.X` comparison there is an equality of
integer member values, which are computed at module import from
`currentYear`; members whose values coincide alias each other, so at an
import-time year where the trading-day count equals the business-day count a
`TRADINGDAYS` context satisfies the `== DayCountType.BUSINESSDAYS`
conditions and is routed through the holiday-free branches. -/
def CalcIvGreeks.tteDivisor (currentYear : Nat) (dct : DayCountType) (past future : DateTime) : Int :=
  if (dct.value currentYear = DayCountType.BUSINESSDAYS.value currentYear
        ∧ past.date.year = future.date.year)
      ∨ (dct.value currentYear = DayCountType.TRADINGDAYS.value currentYear
        ∧ past.date.year = future.date.year) then
    dct.value currentYear
  else if dct.value currentYear = DayCountType.BUSINESSDAYS.value currentYear
      ∧ past.date.year < future.date.year ∧ future.date.year = past.date.year + 1 then
    busdayCount [] past.date.toOrdinal (Date.toOrdinal ⟨past.date.year + 1, 1, 1⟩)
      + busdayCount [] (Date.toOrdinal ⟨future.date.year, 1, 1⟩)
          (Date.toOrdinal ⟨future.date.year + 1, 1, 1⟩)
  else if dct.value currentYear = DayCountType.TRADINGDAYS.value currentYear
      ∧ past.date.year < future.date.year ∧ future.date.year = past.date.year + 1 then
    busdayCount holidayOrdinals past.date.toOrdinal (Date.toOrdinal ⟨past.date.year + 1, 1, 1⟩)
      + busdayCount holidayOrdinals (Date.toOrdinal ⟨future.date.year, 1, 1⟩)
          (Date.toOrdinal ⟨future.date.year + 1, 1, 1⟩)
  else if dct.value currentYear = DayCountType.BUSINESSDAYS.value currentYear
      ∧ past.date.year < future.date.year ∧ past.date.year + 2 ≤ future.date.year then
    busdayCount [] past.date.toOrdinal (future.date.toOrdinal + 1)
  else if dct.value currentYear = DayCountType.TRADINGDAYS.value currentYear
      ∧ past.date.year < future.date.year ∧ past.date.year + 2 ≤ future.date.year then
    busdayCount holidayOrdinals past.date.toOrdinal (future.date.toOrdinal + 1)
  else
    365

/-- `CalcIvGreeks.get_tte` after its internal `refreshNow` (clock refreshing
is applied by the callers of this function on the state they pass). -/
def CalcIvGreeks.get_tte (currentYear : Nat) (dct : DayCountType) (past future : DateTime) : ℚ :=
  CalcIvGreeks.get_dte dct past future / (CalcIvGreeks.tteDivisor currentYear dct past future : ℚ)

/-- The constructor arguments of `CalcIvGreeks.__init__`, with the Python defaults. -/
structure InitArgs where
  FuturePrice : ℚ
  AtmStrike : ℚ
  AtmStrikeCallPrice : ℚ
  AtmStrikePutPrice : ℚ
  ExpiryDateTime : DateTime
  StrikePrice : Option ℚ := none
  StrikeCallPrice : Option ℚ := none
  StrikePutPrice : Option ℚ := none
  ExpiryDateType : ExpType := ExpType.MONTHLY
  FromDateTime : Option DateTime := none
  tryMatchWith : TryMatchWith := TryMatchWith.CUSTOM
  dayCountType : DayCountType := DayCountType.CALENDARDAYS
  interestRate : ℚ := 0

/-- `CalcIvGreeks.__init__`. `now0` is the `dt.now()` sample taken when
`FromDateTime is None`; `now1` the sample taken by the `refreshNow` inside
`self.T = self.get_tte()` (used only when the tag came out `DYNAMIC`).
The body performs no input validation and raises nothing
(`_validate_atm_prices` only prints warnings), so this always succeeds. -/
def CalcIvGreeks.init (currentYear : Nat) (now0 now1 : DateTime) (a : InitArgs) :
    Except PyError CalcIvGreeks :=
  let datePast0 := a.FromDateTime.getD now0
  let dpt := if datePast0.microsecond = 0 then FromDateType.FIXED else FromDateType.DYNAMIC
  let datePast1 := if dpt = FromDateType.DYNAMIC then now1 else datePast0
  Except.ok
    { dateFuture := a.ExpiryDateTime
      datePast := datePast1
      datePastType := dpt
      dayCountType := a.dayCountType
      tryMatchWith := a.tryMatchWith
      F := a.FuturePrice
      K0 := a.AtmStrike
      C0 := max a.AtmStrikeCallPrice 0.05
      P0 := max a.AtmStrikePutPrice 0.05
      r := a.interestRate / 100
      S := a.FuturePrice
      original_C0 := a.AtmStrikeCallPrice
      original_P0 := a.AtmStrikePutPrice
      K := a.StrikePrice
      C := a.StrikeCallPrice.map (fun c => if c ≠ 0 then max c 0.05 else 0.05)
      P := a.StrikePutPrice.map (fun p => if p ≠ 0 then max p 0.05 else 0.05)
      T := CalcIvGreeks.get_tte currentYear a.dayCountType datePast1 a.ExpiryDateTime }

/-- `CalcIvGreeks.update`: an explicitly supplied `FromDateTime` overwrites
the valuation time and sets the tag to `FIXED`; then market inputs are
replaced and `T` recomputed (whose `refreshNow` samples `now` if the tag
is still `DYNAMIC`). -/
def CalcIvGreeks.update (currentYear : Nat) (now : DateTime) (s : CalcIvGreeks)
    (FuturePrice AtmStrike AtmStrikeCallPrice AtmStrikePutPrice : ℚ)
    (FromDateTime : Option DateTime) : CalcIvGreeks :=
  let s1 := match FromDateTime with
    | some t => { s with datePast := t, datePastType := FromDateType.FIXED }
    | none => s
  let s2 := { s1 with F := FuturePrice, S := FuturePrice, K0 := AtmStrike,
                      C0 := max AtmStrikeCallPrice 0.05, P0 := max AtmStrikePutPrice 0.05 }
  let s3 := CalcIvGreeks.refreshNow now s2
  { s3 with T := CalcIvGreeks.get_tte currentYear s3.dayCountType s3.datePast s3.dateFuture }

/-- The state mutations performed at the top of `CalcIvGreeks.GetImpVolAndGreeks`:
apply the strike/premium overrides (with the 0.05 floor and Python
truthiness on the premiums), then `refreshNow`. `T` is not recomputed. -/
def CalcIvGreeks.queryUpdateState (s : CalcIvGreeks)
    (StrikePrice StrikeCallPrice StrikePutPrice : Option ℚ) (now : DateTime) : CalcIvGreeks :=
  let s1 := match StrikePrice with
    | some k => { s with K := some k }
    | none => s
  let s2 := match StrikeCallPrice with
    | some c => { s1 with C := some (if c ≠ 0 then max c 0.05 else 0.05) }
    | none => s1
  let s3 := match StrikePutPrice with
    | some p => { s2 with P := some (if p ≠ 0 then max p 0.05 else 0.05) }
    | none => s2
  CalcIvGreeks.refreshNow now s3

/-- IEEE-style extension of `ℝ` with two infinities, for numpy's
`np.inf` / `-np.inf` returned by `BS_d1`. -/
inductive ExtReal
  | neg_inf
  | fin (x : ℝ)
  | pos_inf

/-- Subtract a finite real (float semantics: an infinity absorbs). -/
noncomputable def ExtReal.subReal : ExtReal → ℝ → ExtReal
  | .fin x, y => .fin (x - y)
  | .pos_inf, _ => .pos_inf
  | .neg_inf, _ => .neg_inf

/-- Float negation on the extended line. -/
noncomputable def ExtReal.neg : ExtReal → ExtReal
  | .fin x => .fin (-x)
  | .pos_inf => .neg_inf
  | .neg_inf => .pos_inf

/-- `scipy.stats.norm.cdf`: the standard normal cumulative distribution. -/
noncomputable def normCdf (x : ℝ) : ℝ :=
  (Real.sqrt (2 * Real.pi))⁻¹ * ∫ t in Set.Iic x, Real.exp (-t ^ 2 / 2)

/-- `scipy.stats.norm.pdf`: the standard normal density. -/
noncomputable def normPdf (x : ℝ) : ℝ :=
  (Real.sqrt (2 * Real.pi))⁻¹ * Real.exp (-x ^ 2 / 2)

/-- `norm.cdf` extended to the infinities as scipy evaluates them:
`cdf(inf) = 1`, `cdf(-inf) = 0`. -/
noncomputable def normCdfE : ExtReal → ℝ
  | ExtReal.fin x => normCdf x
  | ExtReal.pos_inf => 1
  | ExtReal.neg_inf => 0

/-- `norm.pdf` extended to the infinities as scipy evaluates them:
`pdf(inf) = pdf(-inf) = 0`. -/
noncomputable def normPdfE : ExtReal → ℝ
  | ExtReal.fin x => normPdf x
  | ExtReal.pos_inf => 0
  | ExtReal.neg_inf => 0

/-- The class constant `CalcIvGreeks.IV_LOWER_BOUND = 1e-11`. -/
noncomputable def CalcIvGreeks.IV_LOWER_BOUND : ℝ := 1e-11

/-- `CalcIvGreeks.BS_d1`: guarded Black-76 `d1`; for `sigma` at or below
`IV_LOWER_BOUND` it returns `np.inf` when `F > K` and `-np.inf` otherwise. -/
noncomputable def CalcIvGreeks.BS_d1 (F K T sigma : ℝ) : ExtReal :=
  if CalcIvGreeks.IV_LOWER_BOUND < sigma then
    ExtReal.fin ((Real.log (F / K) + sigma ^ 2 / 2 * T) / (sigma * Real.sqrt T))
  else if K < F then ExtReal.pos_inf else ExtReal.neg_inf

/-- `CalcIvGreeks.BS_d2 = BS_d1 - sigma * sqrt T`. -/
noncomputable def CalcIvGreeks.BS_d2 (F K T sigma : ℝ) : ExtReal :=
  (CalcIvGreeks.BS_d1 F K T sigma).subReal (sigma * Real.sqrt T)

/-- `CalcIvGreeks.BS_CallPricing`: `exp(-rT) * (N(d1)·F - N(d2)·K)`. -/
noncomputable def CalcIvGreeks.BS_CallPricing (F K T r sigma : ℝ) : ℝ :=
  Real.exp (-(r * T)) *
    (normCdfE (CalcIvGreeks.BS_d1 F K T sigma) * F - normCdfE (CalcIvGreeks.BS_d2 F K T sigma) * K)

/-- `CalcIvGreeks.BS_PutPricing`: `exp(-rT) * (N(-d2)·K - N(-d1)·F)`. -/
noncomputable def CalcIvGreeks.BS_PutPricing (F K T r sigma : ℝ) : ℝ :=
  Real.exp (-(r * T)) *
    (normCdfE (CalcIvGreeks.BS_d2 F K T sigma).neg * K
      - normCdfE (CalcIvGreeks.BS_d1 F K T sigma).neg * F)

/-- `CalcIvGreeks.DeltaCall = exp(-rT) * N(d1)`. -/
noncomputable def CalcIvGreeks.DeltaCall (F K T r sigma : ℝ) : ℝ :=
  Real.exp (-(r * T)) * normCdfE (CalcIvGreeks.BS_d1 F K T sigma)

/-- `CalcIvGreeks.DeltaPut = exp(-rT) * (N(d1) - 1)`. -/
noncomputable def CalcIvGreeks.DeltaPut (F K T r sigma : ℝ) : ℝ :=
  Real.exp (-(r * T)) * (normCdfE (CalcIvGreeks.BS_d1 F K T sigma) - 1)

/-- `CalcIvGreeks.Gamma`: `exp(-rT) * pdf(d1) / (F·sigma·sqrt T)` above the
lower bound, 0 at or below it. -/
noncomputable def CalcIvGreeks.Gamma (F K T r sigma : ℝ) : ℝ :=
  if CalcIvGreeks.IV_LOWER_BOUND < sigma then
    Real.exp (-(r * T)) * normPdfE (CalcIvGreeks.BS_d1 F K T sigma) / (F * sigma * Real.sqrt T)
  else 0

/-- `CalcIvGreeks.Vega = exp(-rT) * pdf(d1) * F * sqrt T`. -/
noncomputable def CalcIvGreeks.Vega (F K T r sigma : ℝ) : ℝ :=
  Real.exp (-(r * T)) * normPdfE (CalcIvGreeks.BS_d1 F K T sigma) * F * Real.sqrt T

/-- `CalcIvGreeks.ThetaCall`. -/
noncomputable def CalcIvGreeks.ThetaCall (F K T r sigma : ℝ) : ℝ :=
  -Real.exp (-(r * T)) * (F * sigma * normPdfE (CalcIvGreeks.BS_d1 F K T sigma) / (2 * Real.sqrt T))
    - r * CalcIvGreeks.BS_CallPricing F K T r sigma

/-- `CalcIvGreeks.ThetaPut`. -/
noncomputable def CalcIvGreeks.ThetaPut (F K T r sigma : ℝ) : ℝ :=
  -Real.exp (-(r * T)) * (F * sigma * normPdfE (CalcIvGreeks.BS_d1 F K T sigma) / (2 * Real.sqrt T))
    + r * CalcIvGreeks.BS_PutPricing F K T r sigma

/-- `CalcIvGreeks.RhoCall = -T * CallPrice`. -/
noncomputable def CalcIvGreeks.RhoCall (F K T r sigma : ℝ) : ℝ :=
  -T * CalcIvGreeks.BS_CallPricing F K T r sigma

/-- `CalcIvGreeks.RhoPut = -T * PutPrice`. -/
noncomputable def CalcIvGreeks.RhoPut (F K T r sigma : ℝ) : ℝ :=
  -T * CalcIvGreeks.BS_PutPricing F K T r sigma

/-- Model of `scipy.optimize.brentq(f, a, b, xtol=1e-12, maxiter=100)`:
brentq raises `ValueError` immediately when `f(a)` and `f(b)` have the same
sign (`f(a)*f(b) > 0`, no bracket). Otherwise the numerical iteration runs;
its outcome — a root `Except.ok v`, or `Except.error ()` standing for any
in-iteration exception (non-convergence with `disp=True`, or an exception
raised by `f` itself) — is the explicit parameter `iter`, universally
quantified in every theorem about this model. -/
noncomputable def brentqModel (f : ℝ → ℝ) (a b : ℝ) (iter : Except Unit ℝ) : Except Unit ℝ :=
  if 0 < f a * f b then Except.error () else iter

/-- `CalcIvGreeks.ImplVolWithBrent`: run brentq over `[0.001, 5.0]` on
`sigma ↦ OptionLtp - PricingFunction(sigma)`; floor a solved root at
`IV_LOWER_BOUND`; on any exception (`except Exception`) return
`IV_LOWER_BOUND`. -/
noncomputable def CalcIvGreeks.ImplVolWithBrent (OptionLtp : ℝ) (PricingFunction : ℝ → ℝ)
    (iter : Except Unit ℝ) : ℝ :=
  match brentqModel (fun sigma => OptionLtp - PricingFunction sigma) 0.001 5.0 iter with
  | Except.ok ImplVol =>
      if CalcIvGreeks.IV_LOWER_BOUND < ImplVol then ImplVol else CalcIvGreeks.IV_LOWER_BOUND
  | Except.error _ => CalcIvGreeks.IV_LOWER_BOUND

/-- Python `round` to an integer: nearest, ties to even. -/
noncomputable def pyRoundInt (x : ℝ) : ℤ :=
  if Int.fract x < 1 / 2 then ⌊x⌋
  else if 1 / 2 < Int.fract x then ⌊x⌋ + 1
  else if 2 ∣ ⌊x⌋ then ⌊x⌋ else ⌊x⌋ + 1

/-- Python `round(x, n)` for `n ≥ 0` digits. -/
noncomputable def pyRound (n : ℕ) (x : ℝ) : ℝ :=
  ((pyRoundInt (x * 10 ^ n) : ℝ)) / 10 ^ n

/-- The report dictionary returned by `CalcIvGreeks.GetImpVolAndGreeks`.
The `TryMatchWith.NSE` extra dictionary only repeats the `CallIV`/`PutIV`
keys with identical values, so the merged dictionary is the same for every
`tryMatchWith` and is modelled once. -/
structure Report where
  Strike : ℝ
  FuturePrice : ℝ
  IsOTMCall : Bool
  ImplVol : ℝ
  CallIV : ℝ
  PutIV : ℝ
  CallDelta : ℝ
  PutDelta : ℝ
  Theta : ℝ
  Vega : ℝ
  Gamma : ℝ
  RhoCall : ℝ
  RhoPut : ℝ

/-- The report computed by `CalcIvGreeks.GetImpVolAndGreeks` once the
attributes `K = k`, `C = c`, `P = p` are all set on the (already
refreshed) state `s`. `iterC`/`iterP` are the brentq iteration outcomes
for the call and put solves. -/
noncomputable def CalcIvGreeks.buildReport (s : CalcIvGreeks) (k c p : ℚ)
    (useOtmLiquidity : Bool) (iterC iterP : Except Unit ℝ) : Report :=
  let F : ℝ := (s.F : ℝ)
  let K : ℝ := (k : ℝ)
  let T : ℝ := (s.T : ℝ)
  let r : ℝ := (s.r : ℝ)
  let CallIV := pyRound 6 (CalcIvGreeks.ImplVolWithBrent (c : ℝ) (CalcIvGreeks.BS_CallPricing F K T r) iterC)
  let PutIV := pyRound 6 (CalcIvGreeks.ImplVolWithBrent (p : ℝ) (CalcIvGreeks.BS_PutPricing F K T r) iterP)
  let is_otm_call : Bool := decide (s.F ≤ k)
  let StrikeIV := if useOtmLiquidity then (if is_otm_call then CallIV else PutIV)
    else (CallIV + PutIV) / 2
  let Delta := pyRound 4 (CalcIvGreeks.DeltaCall F K T r StrikeIV)
  { Strike := K
    FuturePrice := pyRound 2 F
    IsOTMCall := is_otm_call
    ImplVol := pyRound 2 (StrikeIV * 100)
    CallIV := pyRound 2 (CallIV * 100)
    PutIV := pyRound 2 (PutIV * 100)
    CallDelta := Delta
    PutDelta := pyRound 4 (Delta - Real.exp (-(r * T)))
    Theta := pyRound 4 (CalcIvGreeks.ThetaPut F K T r StrikeIV / 365)
    Vega := pyRound 4 (CalcIvGreeks.Vega F K T r StrikeIV / 100)
    Gamma := pyRound 6 (CalcIvGreeks.Gamma F K T r StrikeIV)
    RhoCall := pyRound 4 (CalcIvGreeks.RhoCall F K T r CallIV / 100)
    RhoPut := pyRound 4 (CalcIvGreeks.RhoPut F K T r PutIV / 100) }

/-- `CalcIvGreeks.GetImpVolAndGreeks`: apply overrides and refresh, then
solve and report. An unset `self.C` raises `AttributeError` when
`CallImplVol` evaluates `self.ImplVolWithBrent(self.C, ...)` (the access is
outside the solver's `try`); likewise `self.P` in `PutImplVol`; an unset
`self.K` raises when the report dictionary evaluates `"Strike": self.K`
(accesses of `self.K` inside the pricing lambda are swallowed by the
solver's `except Exception`, so they alone do not fault). The returned
pair is the mutated state and the report. -/
noncomputable def CalcIvGreeks.GetImpVolAndGreeks (s : CalcIvGreeks)
    (StrikePrice StrikeCallPrice StrikePutPrice : Option ℚ)
    (useOtmLiquidity : Bool) (now : DateTime) (iterC iterP : Except Unit ℝ) :
    Except PyError (CalcIvGreeks × Report) :=
  let s1 := CalcIvGreeks.queryUpdateState s StrikePrice StrikeCallPrice StrikePutPrice now
  match s1.C with
  | none => Except.error PyError.attributeError
  | some c =>
    match s1.P with
    | none => Except.error PyError.attributeError
    | some p =>
      match s1.K with
      | none => Except.error PyError.attributeError
      | some k => Except.ok (s1, CalcIvGreeks.buildReport s1 k c p useOtmLiquidity iterC iterP)

/-- Modelled from the words of claim C5: the year-fraction divisor decision
table with "the total business/trading-day count of that single year"
read as the count over the (equal) valuation/expiry year itself. -/
def specDivisorC5 (dct : DayCountType) (past future : DateTime) : Int :=
  let hols := match dct with
    | DayCountType.TRADINGDAYS => holidayOrdinals
    | _ => ([] : List Nat)
  if dct = DayCountType.CALENDARDAYS then 365
  else if past.date.year = future.date.year then
    busdayCount hols (Date.toOrdinal ⟨past.date.year, 1, 1⟩)
      (Date.toOrdinal ⟨past.date.year + 1, 1, 1⟩)
  else if future.date.year = past.date.year + 1 then
    busdayCount hols past.date.toOrdinal (Date.toOrdinal ⟨past.date.year + 1, 1, 1⟩)
      + busdayCount hols (Date.toOrdinal ⟨future.date.year, 1, 1⟩)
          (Date.toOrdinal ⟨future.date.year + 1, 1, 1⟩)
  else if past.date.year + 2 ≤ future.date.year then
    busdayCount hols past.date.toOrdinal (future.date.toOrdinal + 1)
  else 365

/-- The C5 decision table amended as the code forces: in the same-year
day-count row the counted year is the module-import year (the year baked
into `DayCountType.value` at load time), not the valuation year. -/
def specDivisorC5Amended (currentYear : Nat) (dct : DayCountType) (past future : DateTime) : Int :=
  let hols := match dct with
    | DayCountType.TRADINGDAYS => holidayOrdinals
    | _ => ([] : List Nat)
  if dct = DayCountType.CALENDARDAYS then 365
  else if past.date.year = future.date.year then
    busdayCount hols (Date.toOrdinal ⟨currentYear, 1, 1⟩)
      (Date.toOrdinal ⟨currentYear + 1, 1, 1⟩)
  else if future.date.year = past.date.year + 1 then
    busdayCount hols past.date.toOrdinal (Date.toOrdinal ⟨past.date.year + 1, 1, 1⟩)
      + busdayCount hols (Date.toOrdinal ⟨future.date.year, 1, 1⟩)
          (Date.toOrdinal ⟨future.date.year + 1, 1, 1⟩)
  else if past.date.year + 2 ≤ future.date.year then
    busdayCount hols past.date.toOrdinal (future.date.toOrdinal + 1)
  else 365

/-- Modelled from the words of claim C6: the `get_dte` numerator counts
Mon-Fri days from valuation date to expiry date inclusive, with the
holiday list excluded only under `TRADINGDAYS`, then the 08:30 market-open
offset and the valuation time's offset from midnight subtracted in day
units. -/
def dteSpecC6 (dct : DayCountType) (past future : DateTime) : ℚ :=
  let hols := match dct with
    | DayCountType.TRADINGDAYS => holidayOrdinals
    | _ => ([] : List Nat)
  (((busdayCount hols past.date.toOrdinal (future.date.toOrdinal + 1)) * 86400 - 30600
      - (secondsFromMidnight past : Int) : Int) : ℚ) / 86400

/-- Claim C6 amended as the code forces: the holiday list is excluded under
both `BUSINESSDAYS` and `TRADINGDAYS` (the code passes `holidays=HOLIDAYS`
in the shared non-calendar branch). -/
def dteSpecC6Amended (past future : DateTime) : ℚ :=
  (((busdayCount holidayOrdinals past.date.toOrdinal (future.date.toOrdinal + 1)) * 86400 - 30600
      - (secondsFromMidnight past : Int) : Int) : ℚ) / 86400

/-- A concrete `DYNAMIC`-tagged instance used by concrete-input theorems. -/
def sampleDyn : CalcIvGreeks :=
  { dateFuture := ⟨⟨2025, 12, 30⟩, 15, 30, 0, 0⟩
    datePast := ⟨⟨2025, 12, 1⟩, 9, 15, 0, 123456⟩
    datePastType := FromDateType.DYNAMIC
    dayCountType := DayCountType.CALENDARDAYS
    tryMatchWith := TryMatchWith.CUSTOM
    F := 24000, K0 := 24000, C0 := 150, P0 := 145, r := 0, S := 24000
    original_C0 := 150, original_P0 := 145
    K := some 24100, C := some 90, P := some 85, T := 29 / 365 }

/-- A concrete `FIXED`-tagged instance used by concrete-input theorems. -/
def sampleFix : CalcIvGreeks :=
  { sampleDyn with datePastType := FromDateType.FIXED,
                   datePast := ⟨⟨2025, 12, 1⟩, 9, 15, 0, 0⟩ }

/-- A concrete instance whose per-strike premiums `C` and `P` were never
supplied (the attributes are unset). -/
def sampleNoPrem : CalcIvGreeks :=
  { sampleFix with C := none, P := none }

/-- The standard Gaussian density kernel is integrable over the line. -/
lemma gauss_integrable : MeasureTheory.Integrable (fun t : ℝ => Real.exp (-t ^ 2 / 2)) := by
  have h := integrable_exp_neg_mul_sq (show (0:ℝ) < 1/2 by norm_num)
  have e : (fun t : ℝ => Real.exp (-t ^ 2 / 2)) = fun t : ℝ => Real.exp (-(1/2) * t ^ 2) := by
    funext t; ring_nf
  rw [e]; exact h

/-- The full Gaussian integral: `∫ exp (-t^2/2) = sqrt (2π)`. -/
lemma integral_gauss : ∫ t : ℝ, Real.exp (-t ^ 2 / 2) = Real.sqrt (2 * Real.pi) := by
  have h := integral_gaussian (1/2 : ℝ)
  have e : (fun t : ℝ => Real.exp (-t ^ 2 / 2)) = fun t : ℝ => Real.exp (-(1/2) * t ^ 2) := by
    funext t; ring_nf
  rw [e]
  rw [h]
  rw [show (Real.pi / (1/2)) = 2 * Real.pi by ring]

lemma sqrt_two_pi_pos : 0 < Real.sqrt (2 * Real.pi) :=
  Real.sqrt_pos.mpr (by positivity)

/-- Reflection of the Gaussian tail integral. -/
lemma setIntegral_gauss_Iic_neg (x : ℝ) :
    ∫ t in Set.Iic (-x), Real.exp (-t ^ 2 / 2) = ∫ t in Set.Ioi x, Real.exp (-t ^ 2 / 2) := by
  have h := integral_comp_neg_Iic (-x) (fun t : ℝ => Real.exp (-t ^ 2 / 2))
  simp only [neg_neg, neg_sq] at h
  exact h

/-- The complement law of the normal CDF: `N(x) + N(-x) = 1`. -/
lemma normCdf_add_neg (x : ℝ) : normCdf x + normCdf (-x) = 1 := by
  rw [normCdf, normCdf, setIntegral_gauss_Iic_neg, ← mul_add,
    intervalIntegral.integral_Iic_add_Ioi gauss_integrable.integrableOn gauss_integrable.integrableOn,
    integral_gauss, inv_mul_cancel₀ (ne_of_gt sqrt_two_pi_pos)]

lemma normCdf_nonneg (x : ℝ) : 0 ≤ normCdf x :=
  mul_nonneg (inv_nonneg.mpr (Real.sqrt_nonneg _))
    (MeasureTheory.setIntegral_nonneg measurableSet_Iic fun _t _ => (Real.exp_pos _).le)

lemma normCdf_le_one (x : ℝ) : normCdf x ≤ 1 := by
  have h1 : (∫ t in Set.Iic x, Real.exp (-t ^ 2 / 2)) ≤ ∫ t : ℝ, Real.exp (-t ^ 2 / 2) :=
    MeasureTheory.setIntegral_le_integral gauss_integrable
      (Filter.Eventually.of_forall fun t => (Real.exp_pos _).le)
  calc normCdf x ≤ (Real.sqrt (2 * Real.pi))⁻¹ * ∫ t : ℝ, Real.exp (-t ^ 2 / 2) :=
        mul_le_mul_of_nonneg_left h1 (inv_nonneg.mpr (Real.sqrt_nonneg _))
    _ = 1 := by rw [integral_gauss, inv_mul_cancel₀ (ne_of_gt sqrt_two_pi_pos)]

lemma normCdfE_nonneg (e : ExtReal) : 0 ≤ normCdfE e := by
  cases e with
  | fin x => exact normCdf_nonneg x
  | pos_inf => norm_num [normCdfE]
  | neg_inf => norm_num [normCdfE]

lemma normCdfE_le_one (e : ExtReal) : normCdfE e ≤ 1 := by
  cases e with
  | fin x => exact normCdf_le_one x
  | pos_inf => norm_num [normCdfE]
  | neg_inf => norm_num [normCdfE]

/-- The Black-76 call price never exceeds the future price when the strike
and future are nonnegative and the discount exponent `r * T` is nonnegative. -/
lemma BS_CallPricing_le (F K T r sigma : ℝ) (hF : 0 ≤ F) (hK : 0 ≤ K) (hrT : 0 ≤ r * T) :
    CalcIvGreeks.BS_CallPricing F K T r sigma ≤ F := by
  unfold CalcIvGreeks.BS_CallPricing
  set N1 := normCdfE (CalcIvGreeks.BS_d1 F K T sigma) with hN1
  set N2 := normCdfE (CalcIvGreeks.BS_d2 F K T sigma) with hN2
  have h1 : 0 ≤ N1 := normCdfE_nonneg _
  have h2 : N1 ≤ 1 := normCdfE_le_one _
  have h3 : 0 ≤ N2 := normCdfE_nonneg _
  have hexp : Real.exp (-(r * T)) ≤ 1 := Real.exp_le_one_iff.mpr (by linarith)
  have hexp0 : 0 < Real.exp (-(r * T)) := Real.exp_pos _
  have hinner : N1 * F - N2 * K ≤ F := by nlinarith
  rcases le_or_lt 0 (N1 * F - N2 * K) with h | h
  · calc Real.exp (-(r * T)) * (N1 * F - N2 * K) ≤ 1 * (N1 * F - N2 * K) :=
        mul_le_mul_of_nonneg_right hexp h
      _ = N1 * F - N2 * K := one_mul _
      _ ≤ F := hinner
  · calc Real.exp (-(r * T)) * (N1 * F - N2 * K) ≤ 0 := by nlinarith
      _ ≤ F := hF

/-- C1: for every observed premium, pricing function and brentq iteration
outcome, `ImplVolWithBrent` returns a value at least `IV_LOWER_BOUND` (never
zero or below) and raises nothing; when the bracket over `[0.001, 5.0]` has
no sign change, or the iteration fails, it returns exactly `IV_LOWER_BOUND`;
in particular an economically impossible call premium above the (discounted,
nonnegative-rate) future price yields exactly `IV_LOWER_BOUND`. -/
theorem C1_implVolWithBrent_total_floored_sentinel :
    ∀ (OptionLtp : ℝ) (PricingFunction : ℝ → ℝ) (iter : Except Unit ℝ),
      CalcIvGreeks.IV_LOWER_BOUND ≤ CalcIvGreeks.ImplVolWithBrent OptionLtp PricingFunction iter
    ∧ (0 < (OptionLtp - PricingFunction 0.001) * (OptionLtp - PricingFunction 5.0) →
        CalcIvGreeks.ImplVolWithBrent OptionLtp PricingFunction iter
          = CalcIvGreeks.IV_LOWER_BOUND)
    ∧ (iter = Except.error () →
        CalcIvGreeks.ImplVolWithBrent OptionLtp PricingFunction iter
          = CalcIvGreeks.IV_LOWER_BOUND)
    ∧ (∀ F K T r : ℝ, 0 ≤ F → 0 ≤ K → 0 ≤ r * T → F < OptionLtp →
        CalcIvGreeks.ImplVolWithBrent OptionLtp (CalcIvGreeks.BS_CallPricing F K T r) iter
          = CalcIvGreeks.IV_LOWER_BOUND) := by
  intro Ltp P iter
  refine ⟨?_, ?_, ?_, ?_⟩
  · unfold CalcIvGreeks.ImplVolWithBrent brentqModel
    split
    · rename_i v _
      split
      · rename_i h; exact le_of_lt h
      · exact le_refl _
    · exact le_refl _
  · intro hbr
    unfold CalcIvGreeks.ImplVolWithBrent brentqModel
    rw [if_pos hbr]
  · intro hiter
    subst hiter
    have hb : brentqModel (fun sigma => Ltp - P sigma) 0.001 5.0 (Except.error ())
        = Except.error () := by
      unfold brentqModel; split <;> rfl
    unfold CalcIvGreeks.ImplVolWithBrent
    rw [hb]
  · intro F K T r hF hK hrT hLtp
    have h1 : 0 < Ltp - CalcIvGreeks.BS_CallPricing F K T r 0.001 := by
      have := BS_CallPricing_le F K T r 0.001 hF hK hrT
      linarith
    have h2 : 0 < Ltp - CalcIvGreeks.BS_CallPricing F K T r 5.0 := by
      have := BS_CallPricing_le F K T r 5.0 hF hK hrT
      linarith
    unfold CalcIvGreeks.ImplVolWithBrent brentqModel
    rw [if_pos (mul_pos h1 h2)]

/-- Witness for C1 at a concrete impossible premium: future 2, strike 1,
premium 3 > 2, every hypothesis discharged numerically. -/
theorem C1_witness :
    (0:ℝ) ≤ 2 ∧ (0:ℝ) ≤ 1 ∧ (0:ℝ) ≤ 0 * 1 ∧ (2:ℝ) < 3 ∧
    CalcIvGreeks.ImplVolWithBrent 3 (CalcIvGreeks.BS_CallPricing 2 1 1 0) (Except.ok 1)
      = CalcIvGreeks.IV_LOWER_BOUND :=
  ⟨by norm_num, by norm_num, by norm_num, by norm_num,
    (C1_implVolWithBrent_total_floored_sentinel 3 (CalcIvGreeks.BS_CallPricing 2 1 1 0)
      (Except.ok 1)).2.2.2 2 1 1 0 (by norm_num) (by norm_num) (by norm_num) (by norm_num)⟩

/-- C2: for every `sigma` above `IV_LOWER_BOUND` and positive strike, expiry
and future price, the direct Black-76 call and put pricers satisfy put-call
parity exactly: `Call(sigma) - Put(sigma) = exp(-rT) * (F - K)`. -/
theorem C2_put_call_parity (F K T r sigma : ℝ)
    (hs : CalcIvGreeks.IV_LOWER_BOUND < sigma) (_hK : 0 < K) (_hT : 0 < T) (_hF : 0 < F) :
    CalcIvGreeks.BS_CallPricing F K T r sigma - CalcIvGreeks.BS_PutPricing F K T r sigma
      = Real.exp (-(r * T)) * (F - K) := by
  unfold CalcIvGreeks.BS_CallPricing CalcIvGreeks.BS_PutPricing CalcIvGreeks.BS_d2
    CalcIvGreeks.BS_d1
  rw [if_pos hs]
  simp only [ExtReal.subReal, ExtReal.neg, normCdfE]
  have h1 := normCdf_add_neg ((Real.log (F / K) + sigma ^ 2 / 2 * T) / (sigma * Real.sqrt T))
  have h2 := normCdf_add_neg
    ((Real.log (F / K) + sigma ^ 2 / 2 * T) / (sigma * Real.sqrt T) - sigma * Real.sqrt T)
  linear_combination Real.exp (-(r * T)) * F * h1 - Real.exp (-(r * T)) * K * h2

/-- Witness for C2 at `F = 2, K = 1, T = 1, r = 0, sigma = 1`. -/
theorem C2_witness :
    CalcIvGreeks.IV_LOWER_BOUND < (1:ℝ) ∧ (0:ℝ) < 1 ∧ (0:ℝ) < 1 ∧ (0:ℝ) < 2 ∧
    CalcIvGreeks.BS_CallPricing 2 1 1 0 1 - CalcIvGreeks.BS_PutPricing 2 1 1 0 1
      = Real.exp (-(0 * 1)) * (2 - 1) :=
  ⟨by norm_num [CalcIvGreeks.IV_LOWER_BOUND], by norm_num, by norm_num, by norm_num,
    C2_put_call_parity 2 1 1 0 1 (by norm_num [CalcIvGreeks.IV_LOWER_BOUND]) (by norm_num)
      (by norm_num) (by norm_num)⟩

/-- C8: the delta-parity identity `DeltaCall(sigma) - DeltaPut(sigma)
= exp(-rT)` holds for every sigma, and in every report the `PutDelta` field
is derived from the rounded `CallDelta` field by subtracting `exp(-rT)` and
rounding to 4 digits, not solved independently. -/
theorem C8_delta_parity_and_report :
    (∀ F K T r sigma : ℝ,
        CalcIvGreeks.DeltaCall F K T r sigma - CalcIvGreeks.DeltaPut F K T r sigma
          = Real.exp (-(r * T)))
  ∧ (∀ (s : CalcIvGreeks) (k c p : ℚ) (useOtm : Bool) (iterC iterP : Except Unit ℝ),
      (CalcIvGreeks.buildReport s k c p useOtm iterC iterP).PutDelta
        = pyRound 4 ((CalcIvGreeks.buildReport s k c p useOtm iterC iterP).CallDelta
            - Real.exp (-((s.r : ℝ) * (s.T : ℝ))))) := by
  constructor
  · intro F K T r sigma
    unfold CalcIvGreeks.DeltaCall CalcIvGreeks.DeltaPut
    ring
  · intro s k c p useOtm iterC iterP
    rfl

/-- C10: for sigma at or below `IV_LOWER_BOUND` with positive `F`, `K`, `T`,
`BS_d1` is `+inf` when `F > K` and `-inf` when `F <= K` (no division is
performed), `Gamma` is exactly 0, and `Vega` is the well-defined finite
value 0 (scipy evaluates the density at an infinity as 0). -/
theorem C10_degenerate_sigma (F K T r sigma : ℝ)
    (hs : sigma ≤ CalcIvGreeks.IV_LOWER_BOUND) (_hF : 0 < F) (_hK : 0 < K) (_hT : 0 < T) :
    (K < F → CalcIvGreeks.BS_d1 F K T sigma = ExtReal.pos_inf)
  ∧ (F ≤ K → CalcIvGreeks.BS_d1 F K T sigma = ExtReal.neg_inf)
  ∧ CalcIvGreeks.Gamma F K T r sigma = 0
  ∧ CalcIvGreeks.Vega F K T r sigma = 0 := by
  have hns : ¬ CalcIvGreeks.IV_LOWER_BOUND < sigma := not_lt.mpr hs
  refine ⟨?_, ?_, ?_, ?_⟩
  · intro h
    unfold CalcIvGreeks.BS_d1
    rw [if_neg hns, if_pos h]
  · intro h
    unfold CalcIvGreeks.BS_d1
    rw [if_neg hns, if_neg (not_lt.mpr h)]
  · unfold CalcIvGreeks.Gamma
    rw [if_neg hns]
  · unfold CalcIvGreeks.Vega CalcIvGreeks.BS_d1
    rw [if_neg hns]
    split <;> simp [normPdfE]

/-- Witness for C10 at `sigma = 0, F = 2, K = 1, T = 1, r = 0`. -/
theorem C10_witness :
    (0:ℝ) ≤ CalcIvGreeks.IV_LOWER_BOUND ∧ (0:ℝ) < 2 ∧ (0:ℝ) < 1 ∧ (0:ℝ) < 1 ∧ (1:ℝ) < 2 ∧
    CalcIvGreeks.BS_d1 2 1 1 0 = ExtReal.pos_inf
  ∧ CalcIvGreeks.Gamma 2 1 1 0 0 = 0
  ∧ CalcIvGreeks.Vega 2 1 1 0 0 = 0 :=
  ⟨by norm_num [CalcIvGreeks.IV_LOWER_BOUND], by norm_num, by norm_num, by norm_num, by norm_num,
    (C10_degenerate_sigma 2 1 1 0 0 (by norm_num [CalcIvGreeks.IV_LOWER_BOUND]) (by norm_num)
      (by norm_num) (by norm_num)).1 (by norm_num),
    (C10_degenerate_sigma 2 1 1 0 0 (by norm_num [CalcIvGreeks.IV_LOWER_BOUND]) (by norm_num)
      (by norm_num) (by norm_num)).2.2.1,
    (C10_degenerate_sigma 2 1 1 0 0 (by norm_num [CalcIvGreeks.IV_LOWER_BOUND]) (by norm_num)
      (by norm_num) (by norm_num)).2.2.2⟩

/-- C3 counterexample: construction succeeds (produces a context, raises
nothing) on an input with negative future price, negative strike and an
expiry strictly before the valuation time — the claim says such inputs must
fail with `InvalidInput`. -/
theorem C3_counterexample :
    (CalcIvGreeks.init 2025 ⟨⟨2025, 8, 14⟩, 9, 30, 0, 0⟩ ⟨⟨2025, 8, 14⟩, 9, 30, 0, 0⟩
      { FuturePrice := -1, AtmStrike := -5, AtmStrikeCallPrice := 1, AtmStrikePutPrice := 1,
        ExpiryDateTime := ⟨⟨2025, 8, 1⟩, 15, 30, 0, 0⟩, StrikePrice := some (-5) }).isOk
      = true := by
  rfl

/-- C3 amended: construction never fails — `__init__` performs no input
validation, so a context is produced for every input, including non-positive
future prices, non-positive strikes and expiries not after the valuation
time. -/
theorem C3_amended :
    ∀ (currentYear : Nat) (now0 now1 : DateTime) (a : InitArgs),
      (CalcIvGreeks.init currentYear now0 now1 a).isOk = true := by
  intro currentYear now0 now1 a
  rfl

/-- C4 counterexample: a caller-supplied valuation time whose microsecond
field is 1 yields a `DYNAMIC` tag (the claim says explicitly supplied implies
`FIXED`), and `update` with an explicit valuation time moves a `DYNAMIC`
instance to `FIXED` (the claim says the tag never transitions). -/
theorem C4_counterexample :
    ((CalcIvGreeks.init 2025 ⟨⟨2025, 12, 1⟩, 9, 0, 0, 0⟩ ⟨⟨2025, 12, 1⟩, 9, 0, 0, 5⟩
        { FuturePrice := 24000, AtmStrike := 24000, AtmStrikeCallPrice := 150,
          AtmStrikePutPrice := 145, ExpiryDateTime := ⟨⟨2025, 12, 30⟩, 15, 30, 0, 0⟩,
          FromDateTime := some ⟨⟨2025, 12, 1⟩, 9, 15, 0, 1⟩ }).toOption.map
        CalcIvGreeks.datePastType = some FromDateType.DYNAMIC)
  ∧ sampleDyn.datePastType = FromDateType.DYNAMIC
  ∧ (CalcIvGreeks.update 2025 ⟨⟨2025, 12, 1⟩, 10, 0, 0, 7⟩ sampleDyn 24000 24000 150 145
        (some ⟨⟨2025, 12, 1⟩, 10, 0, 0, 9⟩)).datePastType = FromDateType.FIXED := by
  refine ⟨rfl, rfl, rfl⟩

/-- C4 amended: the tag is `FIXED` exactly when the valuation time in effect
at construction (the supplied one, or the sampled clock) has a zero
microsecond field; `update` with an explicit valuation time sets the tag to
`FIXED` (a `DYNAMIC`-to-`FIXED` transition), while `update` without one,
`refreshNow` and the query-time state mutation never change the tag; and
`refreshNow` re-samples the clock exactly when the tag is `DYNAMIC`, leaving
the valuation time unchanged when `FIXED`. -/
theorem C4_amended :
    (∀ (currentYear : Nat) (now0 now1 : DateTime) (a : InitArgs) (s : CalcIvGreeks),
        CalcIvGreeks.init currentYear now0 now1 a = Except.ok s →
          (s.datePastType = FromDateType.FIXED ↔ (a.FromDateTime.getD now0).microsecond = 0))
  ∧ (∀ (currentYear : Nat) (now : DateTime) (s : CalcIvGreeks) (fp ks cs ps : ℚ) (t : DateTime),
        (CalcIvGreeks.update currentYear now s fp ks cs ps (some t)).datePastType
          = FromDateType.FIXED)
  ∧ (∀ (currentYear : Nat) (now : DateTime) (s : CalcIvGreeks) (fp ks cs ps : ℚ),
        (CalcIvGreeks.update currentYear now s fp ks cs ps none).datePastType = s.datePastType)
  ∧ (∀ (now : DateTime) (s : CalcIvGreeks),
        (CalcIvGreeks.refreshNow now s).datePastType = s.datePastType)
  ∧ (∀ (now : DateTime) (s : CalcIvGreeks), s.datePastType = FromDateType.DYNAMIC →
        (CalcIvGreeks.refreshNow now s).datePast = now)
  ∧ (∀ (now : DateTime) (s : CalcIvGreeks), s.datePastType = FromDateType.FIXED →
        (CalcIvGreeks.refreshNow now s).datePast = s.datePast)
  ∧ (∀ (s : CalcIvGreeks) (kO cO pO : Option ℚ) (now : DateTime),
        (CalcIvGreeks.queryUpdateState s kO cO pO now).datePastType = s.datePastType) := by
  refine ⟨?_, ?_, ?_, ?_, ?_, ?_, ?_⟩
  · intro currentYear now0 now1 a s h
    unfold CalcIvGreeks.init at h
    rw [Except.ok.injEq] at h
    subst h
    split <;> rename_i hms
    · simpa using hms
    · simpa using hms
  · intro currentYear now s fp ks cs ps t
    rfl
  · intro currentYear now s fp ks cs ps
    simp only [CalcIvGreeks.update, CalcIvGreeks.refreshNow]
    split <;> rfl
  · intro now s
    unfold CalcIvGreeks.refreshNow
    split <;> rfl
  · intro now s h
    unfold CalcIvGreeks.refreshNow
    rw [if_pos h]
  · intro now s h
    unfold CalcIvGreeks.refreshNow
    rw [if_neg (by rw [h]; exact fun hc => FromDateType.noConfusion hc)]
  · intro s kO cO pO now
    rcases kO <;> rcases cO <;> rcases pO <;>
      simp only [CalcIvGreeks.queryUpdateState, CalcIvGreeks.refreshNow] <;>
      split <;> rfl

/-- Witness for C4 at concrete `DYNAMIC` and `FIXED` instances. -/
theorem C4_witness :
    sampleDyn.datePastType = FromDateType.DYNAMIC
  ∧ (CalcIvGreeks.refreshNow ⟨⟨2025, 12, 2⟩, 11, 0, 0, 0⟩ sampleDyn).datePast
      = ⟨⟨2025, 12, 2⟩, 11, 0, 0, 0⟩
  ∧ sampleFix.datePastType = FromDateType.FIXED
  ∧ (CalcIvGreeks.refreshNow ⟨⟨2025, 12, 2⟩, 11, 0, 0, 0⟩ sampleFix).datePast
      = sampleFix.datePast :=
  ⟨rfl, C4_amended.2.2.2.2.1 ⟨⟨2025, 12, 2⟩, 11, 0, 0, 0⟩ sampleDyn rfl, rfl,
    C4_amended.2.2.2.2.2.1 ⟨⟨2025, 12, 2⟩, 11, 0, 0, 0⟩ sampleFix rfl⟩

set_option maxRecDepth 100000 in
set_option maxHeartbeats 1000000 in
/-- C5 amended: the divisor follows the claim's decision table with two
code-forced changes. First, the same-year business/trading row counts the
module-import year (the year baked into the `IntEnum` values at load time),
not the valuation year. Second, convention dispatch compares `IntEnum`
integer values, so the per-convention rows hold as stated only when the
three member values are pairwise distinct (as at import years 2025 and
2026); `BUSINESSDAYS` follows its rows for every import year, and whenever
the import year's trading-day count equals its business-day count (any year
whose weekday holidays are absent from the 2025-26 `HOLIDAYS` list, e.g.
2027) `TRADINGDAYS` aliases `BUSINESSDAYS` and its divisor is computed by
the holiday-free `BUSINESSDAYS` branches. -/
theorem C5_amended :
    (∀ (currentYear : Nat) (dct : DayCountType) (past future : DateTime),
        DayCountType.value currentYear DayCountType.TRADINGDAYS
          ≠ DayCountType.value currentYear DayCountType.BUSINESSDAYS →
        DayCountType.value currentYear DayCountType.CALENDARDAYS
          ≠ DayCountType.value currentYear DayCountType.BUSINESSDAYS →
        DayCountType.value currentYear DayCountType.CALENDARDAYS
          ≠ DayCountType.value currentYear DayCountType.TRADINGDAYS →
        CalcIvGreeks.tteDivisor currentYear dct past future
          = specDivisorC5Amended currentYear dct past future)
  ∧ (∀ (currentYear : Nat) (past future : DateTime),
        CalcIvGreeks.tteDivisor currentYear DayCountType.BUSINESSDAYS past future
          = specDivisorC5Amended currentYear DayCountType.BUSINESSDAYS past future)
  ∧ (∀ (currentYear : Nat) (past future : DateTime),
        DayCountType.value currentYear DayCountType.TRADINGDAYS
          = DayCountType.value currentYear DayCountType.BUSINESSDAYS →
        CalcIvGreeks.tteDivisor currentYear DayCountType.TRADINGDAYS past future
          = CalcIvGreeks.tteDivisor currentYear DayCountType.BUSINESSDAYS past future) := by
  refine ⟨?_, ?_, ?_⟩
  · intro currentYear dct past future h1 h2 h3
    rcases dct
    · simp only [CalcIvGreeks.tteDivisor, specDivisorC5Amended, h2, h3, reduceCtorEq,
        false_and, and_false, or_self, or_false, false_or, if_false, eq_self_iff_true, if_true]
    all_goals {
      by_cases hy1 : past.date.year = future.date.year
      · simp only [CalcIvGreeks.tteDivisor, specDivisorC5Amended, DayCountType.value, hy1,
          reduceCtorEq, eq_self_iff_true, true_and, and_true, true_or, or_true, false_and,
          and_false, or_self, or_false, false_or, if_false, if_true]
      · by_cases hy2 : future.date.year = past.date.year + 1
        · have hlt : past.date.year < future.date.year := by omega
          simp only [CalcIvGreeks.tteDivisor, specDivisorC5Amended, h1, hy1, hy2, hlt,
            reduceCtorEq, eq_self_iff_true, true_and, and_true, true_or, or_true, false_and,
            and_false, or_self, or_false, false_or, if_false, if_true]
          split_ifs <;> first | rfl | omega
        · by_cases hy3 : past.date.year + 2 ≤ future.date.year
          · have hlt : past.date.year < future.date.year := by omega
            simp only [CalcIvGreeks.tteDivisor, specDivisorC5Amended, h1, hy1, hy2, hy3, hlt,
              reduceCtorEq, eq_self_iff_true, true_and, and_true, true_or, or_true, false_and,
              and_false, or_self, or_false, false_or, if_false, if_true]
          · simp only [CalcIvGreeks.tteDivisor, specDivisorC5Amended, h1, hy1, hy2, hy3,
              reduceCtorEq, eq_self_iff_true, true_and, and_true, true_or, or_true, false_and,
              and_false, or_self, or_false, false_or, if_false, if_true]
    }
  · intro currentYear past future
    by_cases hy1 : past.date.year = future.date.year
    · simp only [CalcIvGreeks.tteDivisor, specDivisorC5Amended, DayCountType.value, hy1,
        reduceCtorEq, eq_self_iff_true, true_and, and_true, true_or, or_true, false_and,
        and_false, or_self, or_false, false_or, if_false, if_true]
    · by_cases hy2 : future.date.year = past.date.year + 1
      · have hlt : past.date.year < future.date.year := by omega
        simp only [CalcIvGreeks.tteDivisor, specDivisorC5Amended, hy1, hy2, hlt,
          reduceCtorEq, eq_self_iff_true, true_and, and_true, true_or, or_true, false_and,
          and_false, or_self, or_false, false_or, if_false, if_true]
        split_ifs <;> first | rfl | omega
      · by_cases hy3 : past.date.year + 2 ≤ future.date.year
        · have hlt : past.date.year < future.date.year := by omega
          simp only [CalcIvGreeks.tteDivisor, specDivisorC5Amended, hy1, hy2, hy3, hlt,
            reduceCtorEq, eq_self_iff_true, true_and, and_true, true_or, or_true, false_and,
            and_false, or_self, or_false, false_or, if_false, if_true]
        · simp only [CalcIvGreeks.tteDivisor, specDivisorC5Amended, hy1, hy2, hy3,
            reduceCtorEq, eq_self_iff_true, true_and, and_true, true_or, or_true, false_and,
            and_false, or_self, or_false, false_or, if_false, if_true]
  · intro currentYear past future h
    simp only [CalcIvGreeks.tteDivisor, h]

set_option maxRecDepth 100000 in
set_option maxHeartbeats 2000000 in
/-- C5 counterexample: with the module imported in 2025, a same-year 2028
valuation/expiry pair under `BUSINESSDAYS` divides by 261 (the 2025 weekday
count baked into the enum) while the claim's table prescribes 260 (the
weekday count of 2028 itself). -/
theorem C5_counterexample :
    CalcIvGreeks.tteDivisor 2025 DayCountType.BUSINESSDAYS
        ⟨⟨2028, 3, 2⟩, 9, 0, 0, 0⟩ ⟨⟨2028, 6, 15⟩, 15, 30, 0, 0⟩ = 261
  ∧ specDivisorC5 DayCountType.BUSINESSDAYS
        ⟨⟨2028, 3, 2⟩, 9, 0, 0, 0⟩ ⟨⟨2028, 6, 15⟩, 15, 30, 0, 0⟩ = 260
  ∧ CalcIvGreeks.tteDivisor 2025 DayCountType.BUSINESSDAYS
        ⟨⟨2028, 3, 2⟩, 9, 0, 0, 0⟩ ⟨⟨2028, 6, 15⟩, 15, 30, 0, 0⟩
      ≠ specDivisorC5 DayCountType.BUSINESSDAYS
        ⟨⟨2028, 3, 2⟩, 9, 0, 0, 0⟩ ⟨⟨2028, 6, 15⟩, 15, 30, 0, 0⟩ := by
  refine ⟨by decide, by decide, by decide⟩

set_option maxRecDepth 100000 in
set_option maxHeartbeats 4000000 in
/-- Witness for C5: at import year 2025 the member values are pairwise
distinct (trading 247, business 261, calendar 365) and the table applies to
a `TRADINGDAYS` split-year pair; at import year 2027 both day counts are
261, `TRADINGDAYS` aliases `BUSINESSDAYS`, and the same split-year pair gets
the holiday-free divisor 414 (the with-holiday split would be 391). -/
theorem C5_witness :
    DayCountType.value 2025 DayCountType.TRADINGDAYS
        ≠ DayCountType.value 2025 DayCountType.BUSINESSDAYS
  ∧ CalcIvGreeks.tteDivisor 2025 DayCountType.TRADINGDAYS
        ⟨⟨2025, 6, 2⟩, 9, 0, 0, 0⟩ ⟨⟨2026, 6, 1⟩, 15, 30, 0, 0⟩
      = specDivisorC5Amended 2025 DayCountType.TRADINGDAYS
        ⟨⟨2025, 6, 2⟩, 9, 0, 0, 0⟩ ⟨⟨2026, 6, 1⟩, 15, 30, 0, 0⟩
  ∧ DayCountType.value 2027 DayCountType.TRADINGDAYS
        = DayCountType.value 2027 DayCountType.BUSINESSDAYS
  ∧ CalcIvGreeks.tteDivisor 2027 DayCountType.TRADINGDAYS
        ⟨⟨2025, 6, 2⟩, 9, 0, 0, 0⟩ ⟨⟨2026, 6, 1⟩, 15, 30, 0, 0⟩
      = CalcIvGreeks.tteDivisor 2027 DayCountType.BUSINESSDAYS
        ⟨⟨2025, 6, 2⟩, 9, 0, 0, 0⟩ ⟨⟨2026, 6, 1⟩, 15, 30, 0, 0⟩
  ∧ CalcIvGreeks.tteDivisor 2027 DayCountType.TRADINGDAYS
        ⟨⟨2025, 6, 2⟩, 9, 0, 0, 0⟩ ⟨⟨2026, 6, 1⟩, 15, 30, 0, 0⟩ = 414 :=
  ⟨by decide,
    C5_amended.1 2025 DayCountType.TRADINGDAYS ⟨⟨2025, 6, 2⟩, 9, 0, 0, 0⟩
      ⟨⟨2026, 6, 1⟩, 15, 30, 0, 0⟩ (by decide) (by decide) (by decide),
    by decide,
    C5_amended.2.2 2027 ⟨⟨2025, 6, 2⟩, 9, 0, 0, 0⟩ ⟨⟨2026, 6, 1⟩, 15, 30, 0, 0⟩ (by decide),
    by decide⟩

set_option maxRecDepth 10000 in
/-- C6 counterexample: under `BUSINESSDAYS`, from 2025-08-14 00:00 to expiry
2025-08-18, the code's numerator excludes the Friday holiday 2025-08-15
(count 2, dte 79/48) while the claim's numerator, which excludes holidays
only under `TRADINGDAYS`, counts it (count 3, dte 127/48). -/
theorem C6_counterexample :
    CalcIvGreeks.get_dte DayCountType.BUSINESSDAYS
        ⟨⟨2025, 8, 14⟩, 0, 0, 0, 0⟩ ⟨⟨2025, 8, 18⟩, 15, 30, 0, 0⟩ = 79 / 48
  ∧ dteSpecC6 DayCountType.BUSINESSDAYS
        ⟨⟨2025, 8, 14⟩, 0, 0, 0, 0⟩ ⟨⟨2025, 8, 18⟩, 15, 30, 0, 0⟩ = 127 / 48
  ∧ CalcIvGreeks.get_dte DayCountType.BUSINESSDAYS
        ⟨⟨2025, 8, 14⟩, 0, 0, 0, 0⟩ ⟨⟨2025, 8, 18⟩, 15, 30, 0, 0⟩
      ≠ dteSpecC6 DayCountType.BUSINESSDAYS
        ⟨⟨2025, 8, 14⟩, 0, 0, 0, 0⟩ ⟨⟨2025, 8, 18⟩, 15, 30, 0, 0⟩ := by
  have hcode : busdayCount holidayOrdinals (Date.toOrdinal ⟨2025, 8, 14⟩)
      (Date.toOrdinal ⟨2025, 8, 18⟩ + 1) = 2 := by decide
  have hspec : busdayCount [] (Date.toOrdinal ⟨2025, 8, 14⟩)
      (Date.toOrdinal ⟨2025, 8, 18⟩ + 1) = 3 := by decide
  have e1 : CalcIvGreeks.get_dte DayCountType.BUSINESSDAYS
      ⟨⟨2025, 8, 14⟩, 0, 0, 0, 0⟩ ⟨⟨2025, 8, 18⟩, 15, 30, 0, 0⟩ = 79 / 48 := by
    simp only [CalcIvGreeks.get_dte, secondsFromMidnight, hcode]
    norm_num
  have e2 : dteSpecC6 DayCountType.BUSINESSDAYS
      ⟨⟨2025, 8, 14⟩, 0, 0, 0, 0⟩ ⟨⟨2025, 8, 18⟩, 15, 30, 0, 0⟩ = 127 / 48 := by
    simp only [dteSpecC6, secondsFromMidnight, hspec]
    norm_num
  refine ⟨e1, e2, ?_⟩
  rw [e1, e2]
  norm_num

/-- C6 amended: under both `BUSINESSDAYS` and `TRADINGDAYS` the `get_dte`
numerator counts Mon-Fri days from valuation to expiry inclusive with the
holiday list excluded in both conventions (the code passes
`holidays=HOLIDAYS` in the shared non-calendar branch), adjusted by the
08:30 market-open offset and the valuation time's offset from midnight. -/
theorem C6_amended :
    ∀ (dct : DayCountType) (past future : DateTime),
      dct = DayCountType.BUSINESSDAYS ∨ dct = DayCountType.TRADINGDAYS →
      CalcIvGreeks.get_dte dct past future = dteSpecC6Amended past future := by
  rintro dct past future (rfl | rfl) <;> rfl

/-- Witness for C6 at a concrete date pair under `BUSINESSDAYS`. -/
theorem C6_witness :
    (DayCountType.BUSINESSDAYS = DayCountType.BUSINESSDAYS
      ∨ DayCountType.BUSINESSDAYS = DayCountType.TRADINGDAYS)
  ∧ CalcIvGreeks.get_dte DayCountType.BUSINESSDAYS
        ⟨⟨2025, 12, 1⟩, 9, 15, 0, 0⟩ ⟨⟨2025, 12, 30⟩, 15, 30, 0, 0⟩
      = dteSpecC6Amended ⟨⟨2025, 12, 1⟩, 9, 15, 0, 0⟩ ⟨⟨2025, 12, 30⟩, 15, 30, 0, 0⟩ :=
  ⟨Or.inl rfl,
    C6_amended DayCountType.BUSINESSDAYS ⟨⟨2025, 12, 1⟩, 9, 15, 0, 0⟩
      ⟨⟨2025, 12, 30⟩, 15, 30, 0, 0⟩ (Or.inl rfl)⟩

/-- C9 counterexample: querying an instance whose per-strike call and put
premiums were never supplied returns an uncaught `AttributeError` — the
claim says the query degrades to a sentinel and never raises. -/
theorem C9_counterexample :
    CalcIvGreeks.GetImpVolAndGreeks sampleNoPrem none none none true
        ⟨⟨2025, 12, 2⟩, 10, 0, 0, 0⟩ (Except.ok 1) (Except.ok 1)
      = Except.error PyError.attributeError := by
  rfl

/-- C9 amended: a strike queried with no usable call or put premium (the
attributes unset at construction and not overridden at query time) raises an
uncaught `AttributeError` to the caller — the access to the unset `self.C`
happens outside the solver's exception handler; no empty-sentinel path
exists. -/
theorem C9_amended :
    ∀ (s : CalcIvGreeks) (useOtm : Bool) (now : DateTime) (iterC iterP : Except Unit ℝ),
      s.C = none → s.P = none →
      CalcIvGreeks.GetImpVolAndGreeks s none none none useOtm now iterC iterP
        = Except.error PyError.attributeError := by
  intro s useOtm now iterC iterP hC _hP
  have h1 : (CalcIvGreeks.queryUpdateState s none none none now).C = s.C := by
    simp only [CalcIvGreeks.queryUpdateState, CalcIvGreeks.refreshNow]
    split <;> rfl
  simp only [CalcIvGreeks.GetImpVolAndGreeks]
  rw [h1, hC]

/-- Witness for C9 at the concrete premiumless instance. -/
theorem C9_witness :
    sampleNoPrem.C = none ∧ sampleNoPrem.P = none
  ∧ CalcIvGreeks.GetImpVolAndGreeks sampleNoPrem none none none false
        ⟨⟨2025, 12, 2⟩, 10, 0, 0, 0⟩ (Except.ok 1) (Except.ok 1)
      = Except.error PyError.attributeError :=
  ⟨rfl, rfl, C9_amended sampleNoPrem false ⟨⟨2025, 12, 2⟩, 10, 0, 0, 0⟩
    (Except.ok 1) (Except.ok 1) rfl rfl⟩

/-- C7: with `useOtmLiquidity = true` the report's `IsOTMCall` field is true
exactly when `strike >= futurePrice`, and `ImplVol` is the independently
solved call IV (rounded to 6, times 100, rounded to 2) in that case and the
solved put IV otherwise; with `useOtmLiquidity = false`, `ImplVol` is the
arithmetic average of the two solved IVs (times 100, rounded to 2). -/
theorem C7_otm_selection :
    ∀ (s : CalcIvGreeks) (k c p : ℚ) (iterC iterP : Except Unit ℝ),
      ((CalcIvGreeks.buildReport s k c p true iterC iterP).IsOTMCall = true ↔ s.F ≤ k)
    ∧ (s.F ≤ k →
        (CalcIvGreeks.buildReport s k c p true iterC iterP).ImplVol
          = pyRound 2 (pyRound 6 (CalcIvGreeks.ImplVolWithBrent (c : ℝ)
              (CalcIvGreeks.BS_CallPricing (s.F : ℝ) (k : ℝ) (s.T : ℝ) (s.r : ℝ)) iterC) * 100))
    ∧ (¬ s.F ≤ k →
        (CalcIvGreeks.buildReport s k c p true iterC iterP).ImplVol
          = pyRound 2 (pyRound 6 (CalcIvGreeks.ImplVolWithBrent (p : ℝ)
              (CalcIvGreeks.BS_PutPricing (s.F : ℝ) (k : ℝ) (s.T : ℝ) (s.r : ℝ)) iterP) * 100))
    ∧ (CalcIvGreeks.buildReport s k c p false iterC iterP).ImplVol
        = pyRound 2 ((pyRound 6 (CalcIvGreeks.ImplVolWithBrent (c : ℝ)
              (CalcIvGreeks.BS_CallPricing (s.F : ℝ) (k : ℝ) (s.T : ℝ) (s.r : ℝ)) iterC)
            + pyRound 6 (CalcIvGreeks.ImplVolWithBrent (p : ℝ)
              (CalcIvGreeks.BS_PutPricing (s.F : ℝ) (k : ℝ) (s.T : ℝ) (s.r : ℝ)) iterP)) / 2 * 100) := by
  intro s k c p iterC iterP
  refine ⟨?_, ?_, ?_, ?_⟩
  · simp only [CalcIvGreeks.buildReport, decide_eq_true_eq]
  · intro h
    simp only [CalcIvGreeks.buildReport, decide_eq_true_eq, if_true]
    rw [if_pos h]
  · intro h
    simp only [CalcIvGreeks.buildReport, decide_eq_true_eq, if_true]
    rw [if_neg h]
  · simp only [CalcIvGreeks.buildReport, Bool.false_eq_true, if_false]

/-- Witness for C7 at strikes on both sides of the future price 24000. -/
theorem C7_witness :
    (sampleFix.F ≤ (24100 : ℚ))
  ∧ (CalcIvGreeks.buildReport sampleFix 24100 90 85 true (Except.ok 1) (Except.ok 1)).ImplVol
      = pyRound 2 (pyRound 6 (CalcIvGreeks.ImplVolWithBrent ((90 : ℚ) : ℝ)
          (CalcIvGreeks.BS_CallPricing (sampleFix.F : ℝ) ((24100 : ℚ) : ℝ) (sampleFix.T : ℝ)
            (sampleFix.r : ℝ)) (Except.ok 1)) * 100)
  ∧ ¬ (sampleFix.F ≤ (10000 : ℚ))
  ∧ (CalcIvGreeks.buildReport sampleFix 10000 90 85 true (Except.ok 1) (Except.ok 1)).ImplVol
      = pyRound 2 (pyRound 6 (CalcIvGreeks.ImplVolWithBrent ((85 : ℚ) : ℝ)
          (CalcIvGreeks.BS_PutPricing (sampleFix.F : ℝ) ((10000 : ℚ) : ℝ) (sampleFix.T : ℝ)
            (sampleFix.r : ℝ)) (Except.ok 1)) * 100) :=
  ⟨by norm_num [sampleFix, sampleDyn],
    (C7_otm_selection sampleFix 24100 90 85 (Except.ok 1) (Except.ok 1)).2.1
      (by norm_num [sampleFix, sampleDyn]),
    by norm_num [sampleFix, sampleDyn],
    (C7_otm_selection sampleFix 10000 90 85 (Except.ok 1) (Except.ok 1)).2.2.1
      (by norm_num [sampleFix, sampleDyn])⟩
